import Mathlib

/-!
Verification of the `vcluster connect` command
(`cmd/vclusterctl/cmd/connect.go`).

The command is embedded shallowly.  Interactions with the host cluster
(pod listing, secret reads, in-container command execution, service
reads) are modelled by per-iteration oracle lists: the n-th element of
such a list is the outcome the cluster would return on the n-th poll
iteration, and the length of the list is the number of iterations that
fit before the poll deadline.  `k8s.io/apimachinery/pkg/util/wait.PollImmediate`
is modelled by `pollLoop`: the condition function is called on
successive oracle elements; returning `done` stops with success,
returning an error stops with that error, and exhausting the list
(the deadline elapsing) yields `wait.ErrWaitTimeout`, whose message is
"timed out waiting for the condition".  Errors are modelled as their
message strings; `github.com/pkg/errors.Wrap(err, msg)` produces the
message `msg ++ ": " ++ err`.

Observable side effects (API queries, log notices, handing the kube
config off for persistence, starting the port-forward tunnel) are
recorded in an event trace so that ordering and one-time-notice claims
can be stated.
-/

namespace VC

/-- Message of `wait.ErrWaitTimeout`, returned by `wait.PollImmediate`
when the deadline elapses without the condition becoming true. -/
def errWaitTimeout : String := "timed out waiting for the condition"

/-- `errors.Wrap(err, msg)` from github.com/pkg/errors: the resulting
error's message is `msg: err`. -/
def wrapErr (msg e : String) : String := msg ++ ": " ++ e

/-- Observable events of a `Connect` run, in program order:
cluster-API queries, log notices, the hand-off of the final document,
and the start of the port-forward tunnel. -/
inductive Event where
  | podList
  | secretRead
  | execRead
  | serviceGet
  | logInfo (msg : String)
  | writeOutput
  | startTunnel
deriving DecidableEq, Repr

/-- Outcome of one call of a `wait.PollImmediate` condition function:
`done b` is `(true, nil)` carrying the loop's result, `cont` is
`(false, nil)`, `fail e` is `(_, err)`. -/
inductive PollStep (β : Type) where
  | done (b : β)
  | cont
  | fail (e : String)

/-- `wait.PollImmediate`: run the condition `cond` (with loop-carried
state `σ` and emitted events) over the oracle list.  Exhausting the
list is the deadline elapsing: the result is `wait.ErrWaitTimeout`. -/
def pollLoop {α β σ : Type} (cond : σ → α → PollStep β × σ × List Event) :
    σ → List α → Except String β × List Event
  | _, [] => (.error errWaitTimeout, [])
  | s, a :: rest =>
    match cond s a with
    | (.done b, _, evs) => (.ok b, evs)
    | (.fail e, _, evs) => (.error e, evs)
    | (.cont, s2, evs) =>
      let r := pollLoop cond s2 rest
      (r.1, evs ++ r.2)

/-! ## Pods and the vcluster-pod resolution loop (connect.go lines 122-149) -/

/-- The fields of a listed pod that the resolution loop reads:
`Name`, `CreationTimestamp.Unix()` and `DeletionTimestamp`
(`some t` when a deletion timestamp is set). -/
structure Pod where
  name : String
  creationTs : Int
  deletionTs : Option Int
deriving DecidableEq, Repr

/-- The comparison of `sort.Slice(pods.Items, ...)`: pod `a` comes
before pod `b` when `a.CreationTimestamp.Unix() > b.CreationTimestamp.Unix()`;
as a `le` for merge sort this is `b.creationTs ≤ a.creationTs`
(newest first). -/
def podNewerLe (a b : Pod) : Bool := b.creationTs ≤ a.creationTs

/-- `sort.Slice` by newest creation timestamp first. -/
def sortPodsDesc (l : List Pod) : List Pod := l.mergeSort podNewerLe

/-- One iteration of the pod-resolution poll body applied to a listed
pod set: empty list means keep polling; otherwise sort newest-first and
inspect the first pod; if it has a deletion timestamp keep polling,
else choose it. -/
def resolvePoll (pods : List Pod) : Option Pod :=
  if pods.isEmpty then none
  else
    match sortPodsDesc pods with
    | [] => none
    | p :: _ => if p.deletionTs.isSome then none else some p

/-- The condition function of the pod-resolution `wait.PollImmediate`
(interval 1s, deadline 10s).  A pod-list error aborts the poll with
that error; otherwise the iteration chooses a pod or keeps polling. -/
def resolveStep (_ : Unit) (it : Except String (List Pod)) :
    PollStep String × Unit × List Event :=
  match it with
  | .error e => (.fail e, (), [.podList])
  | .ok pods =>
    match resolvePoll pods with
    | some p => (.done p.name, (), [.podList])
    | none => (.cont, (), [.podList])

/-! ## Kube config documents and `GetKubeConfig` (connect.go lines 300-338) -/

/-- A cluster entry of an `api.Config`; the claims only concern its
`Server` field, the other fields are carried by the collaborators
untouched. -/
structure Cluster where
  server : String
deriving DecidableEq, Repr

/-- The part of `api.Config` that `Connect` inspects and rewrites: the
`Clusters` map, as an association list (Go map iteration order is
irrelevant here because the code requires exactly one entry before
iterating).  `AuthInfos`, `Contexts` and `CurrentContext` are passed
through unchanged and are not modelled. -/
structure KubeConfig where
  clusters : List (String × Cluster)
deriving DecidableEq, Repr

/-- Oracle for one iteration of the `GetKubeConfig` poll:
`secret` is the outcome of `kubeconfig.ReadKubeConfig` (the parsed
document, or an error), `execOut` the outcome of
`podhelper.ExecBuffered(... "cat" "/root/.kube/config" ...)` (captured
stdout, or an error), and `parsed` the outcome of
`clientcmd.Load(stdout)` on that captured stdout (consulted only when
`execOut` succeeded). -/
structure FetchIter where
  secret : Except String KubeConfig
  execOut : Except String String
  parsed : Except String KubeConfig
deriving Repr

/-- Log notice emitted the first time both retrieval strategies fail. -/
def waitingForVclusterMsg : String := "Waiting for vcluster to come up..."

/-- Log notice emitted when the in-container fallback produced the
document. -/
def fallbackMsg : String := "Falling back to reading the kube config from the syncer pod."

/-- The condition function of the `GetKubeConfig` poll (interval 2s,
deadline 10min).  State: the `printedWaiting` flag.  Secret read first;
on its failure the in-container read; an exec failure keeps polling
(with a one-time waiting notice); a parse failure of the exec output
aborts the poll with a parse error; a parse success emits the fallback
notice and finishes. -/
def getKubeConfigStep (printedWaiting : Bool) (it : FetchIter) :
    PollStep KubeConfig × Bool × List Event :=
  match it.secret with
  | .ok kc => (.done kc, printedWaiting, [.secretRead])
  | .error _ =>
    match it.execOut with
    | .error _ =>
      if printedWaiting then
        (.cont, true, [.secretRead, .execRead])
      else
        (.cont, true, [.secretRead, .execRead, .logInfo waitingForVclusterMsg])
    | .ok _ =>
      match it.parsed with
      | .error e =>
        (.fail ("failed to parse kube config: " ++ e), printedWaiting,
          [.secretRead, .execRead])
      | .ok kc =>
        (.done kc, printedWaiting, [.secretRead, .execRead, .logInfo fallbackMsg])

/-- `GetKubeConfig`: the poll, with its error wrapped as
`errors.Wrap(err, "wait for vcluster")`. -/
def getKubeConfig (iters : List FetchIter) : Except String KubeConfig × List Event :=
  let r := pollLoop getKubeConfigStep false iters
  match r.1 with
  | .error e => (.error (wrapErr "wait for vcluster" e), r.2)
  | .ok kc => (.ok kc, r.2)

/-! ## Services and the load-balancer discovery loop (connect.go lines 162-205) -/

/-- `service.Spec.Type`. -/
inductive ServiceType where
  | clusterIP
  | nodePort
  | loadBalancer
  | externalName
deriving DecidableEq, Repr

/-- One entry of `service.Status.LoadBalancer.Ingress`; an unset field
is the empty string, as in the Go structs. -/
structure LoadBalancerIngress where
  hostname : String
  ip : String
deriving DecidableEq, Repr

/-- The fields of the fetched service that the discovery loop reads. -/
structure Service where
  svcType : ServiceType
  ingress : List LoadBalancerIngress
deriving DecidableEq, Repr

/-- Oracle for one iteration of the discovery poll: the outcome of
`Services(namespace).Get(vclusterName)` — not found
(`kerrors.IsNotFound`), another API error, or the service. -/
inductive ServiceResult where
  | notFound
  | apiError (e : String)
  | found (s : Service)
deriving Repr

/-- Log notice emitted once while waiting for a load-balancer IP. -/
def waitingLBMsg : String := "Waiting for vcluster LoadBalancer ip..."

/-- Log notice `Infof("Using vcluster %s load balancer endpoint: %s", ...)`. -/
def usingEndpointMsg (name server : String) : String :=
  "Using vcluster " ++ name ++ " load balancer endpoint: " ++ server

/-- The condition function of the discovery `wait.PollImmediate`
(interval 2s, deadline 5min).  State: (`cmd.Server`, `printedWaiting`).
Not-found finishes at once with the current server; another API error
aborts; a non-LoadBalancer service finishes at once; a LoadBalancer
with no ingress keeps polling with a one-time notice; an ingress entry
sets the server to its hostname, else its IP. -/
def discoverStep (vclusterName : String) (st : String × Bool) (it : ServiceResult) :
    PollStep String × (String × Bool) × List Event :=
  match it with
  | .notFound => (.done st.1, st, [.serviceGet])
  | .apiError e => (.fail e, st, [.serviceGet])
  | .found s =>
    if s.svcType ≠ ServiceType.loadBalancer then (.done st.1, st, [.serviceGet])
    else
      match s.ingress with
      | [] =>
        if st.2 then (.cont, st, [.serviceGet])
        else (.cont, (st.1, true), [.serviceGet, .logInfo waitingLBMsg])
      | ing :: _ =>
        let server :=
          if ing.hostname ≠ "" then ing.hostname
          else if ing.ip ≠ "" then ing.ip
          else st.1
        if server = "" then (.cont, (server, st.2), [.serviceGet])
        else
          (.done server, (server, st.2),
            [.serviceGet, .logInfo (usingEndpointMsg vclusterName server)])

/-- The discovery stage: poll with initial state `("", false)` (it runs
only when `cmd.Server` is empty) and wrap its error as
`errors.Wrap(err, "wait for vcluster")`. -/
def discoverEndpoint (vclusterName : String) (iters : List ServiceResult) :
    Except String String × List Event :=
  let r := pollLoop (discoverStep vclusterName) ("", false) iters
  match r.1 with
  | .error e => (.error (wrapErr "wait for vcluster" e), r.2)
  | .ok s => (.ok s, r.2)

/-! ## The server rewrite loop (connect.go lines 207-225) -/

/-- `strings.Split(s, ":")` over the character list: split at every
colon, keeping empty segments. -/
def splitColonAux : List Char → List Char → List (List Char)
  | [], acc => [acc.reverse]
  | c :: rest, acc =>
    if c = ':' then acc.reverse :: splitColonAux rest []
    else splitColonAux rest (c :: acc)

/-- `strings.Split(s, ":")`. -/
def goSplitColon (s : String) : List String :=
  (splitColonAux s.data []).map List.asString

/-- `strings.Join(ss, ":")`. -/
def goJoinColon : List String → String
  | [] => ""
  | [s] => s
  | s :: rest => s ++ ":" ++ goJoinColon rest

/-- `strings.HasPrefix(s.data, pre.data)` over character lists. -/
def listStartsWith : List Char → List Char → Bool
  | [], _ => true
  | _, [] => false
  | a :: as, b :: bs => a = b && listStartsWith as bs

/-- `strings.HasPrefix(s, "https://")`. -/
def goHasHttps (s : String) : Bool := listStartsWith "https://".data s.data

/-- `strconv.Itoa`. -/
def goItoa (n : Int) : String := toString n

/-- The `for k := range kubeConfig.Clusters` loop: threads `cmd.Server`
and the `port` variable through the iterations and rebuilds the map.
With a non-empty server, prepend `https://` if missing and replace the
entry's server wholesale.  With an empty server, split the entry's
server on colons; anything but exactly three segments is the
`unexpected server in kubeconfig` error; otherwise remember the third
segment as the remote port and substitute the local port for it. -/
def rewriteClusters (localPort : Int) :
    String → String → List (String × Cluster) →
    Except String (String × String × List (String × Cluster))
  | server, port, [] => .ok (server, port, [])
  | server, port, (k, c) :: rest =>
    if server ≠ "" then
      let server2 := if goHasHttps server then server else "https://" ++ server
      match rewriteClusters localPort server2 port rest with
      | .error e => .error e
      | .ok (s3, p3, rest3) => .ok (s3, p3, (k, ⟨server2⟩) :: rest3)
    else
      let splitted := goSplitColon c.server
      if splitted.length ≠ 3 then
        .error ("unexpected server in kubeconfig: " ++ c.server)
      else
        let port2 := splitted.getD 2 ""
        let splitted2 := splitted.set 2 (goItoa localPort)
        match rewriteClusters localPort server port2 rest with
        | .error e => .error e
        | .ok (s3, p3, rest3) =>
          .ok (s3, p3, (k, ⟨goJoinColon splitted2⟩) :: rest3)

/-! ## The whole `Connect` flow (connect.go lines 97-275) -/

/-- Inputs of a `Connect` run: the flag and argument values, and the
oracle lists for the three polls.  Namespace, kube-config loading and
the output flags (`--update-current`, `--print`, `--kube-config`) do
not affect the verified behaviour and are omitted; the hand-off of the
final document is the single `writeOutput` event. -/
structure ConnectInputs where
  vclusterName : String
  podName : String
  server : String
  localPort : Int
  podIters : List (Except String (List Pod))
  fetchIters : List FetchIter
  svcIters : List ServiceResult
deriving Repr

/-- Result of a successful `Connect` run: the rewritten cluster map and
the tunnel that was started, if any, as (local port, remote port). -/
structure ConnectResult where
  finalClusters : List (String × Cluster)
  tunnel : Option (Int × String)
deriving DecidableEq, Repr

/-- Rewrite stage and tail of `Connect`: rewrite the cluster servers,
hand the document off, and, when `cmd.Server` ended up empty, start the
port-forward tunnel from the local port to the remembered remote
port. -/
def connectRewrite (i : ConnectInputs) (kc : KubeConfig) (server : String)
    (tr : List Event) : Except String ConnectResult × List Event :=
  match rewriteClusters i.localPort server "" kc.clusters with
  | .error e => (.error e, tr)
  | .ok (serverFinal, port, clusters2) =>
    if serverFinal ≠ "" then
      (.ok ⟨clusters2, none⟩, tr ++ [.writeOutput])
    else
      (.ok ⟨clusters2, some (i.localPort, port)⟩, tr ++ [.writeOutput, .startTunnel])

/-- Discovery stage of `Connect`: the service poll runs only when a
vcluster name was given and no explicit `--server`. -/
def connectWithConfig (i : ConnectInputs) (kc : KubeConfig) (tr : List Event) :
    Except String ConnectResult × List Event :=
  if i.vclusterName ≠ "" ∧ i.server = "" then
    let d := discoverEndpoint i.vclusterName i.svcIters
    match d.1 with
    | .error e => (.error e, tr ++ d.2)
    | .ok server => connectRewrite i kc server (tr ++ d.2)
  else connectRewrite i kc i.server tr

/-- Fetch stage of `Connect`: `GetKubeConfig`, its error wrapped as
`errors.Wrap(err, "failed to parse kube config")`, then the
exactly-one-cluster check (`unexpected kube config`). -/
def connectWithPod (i : ConnectInputs) (tr : List Event) :
    Except String ConnectResult × List Event :=
  let f := getKubeConfig i.fetchIters
  match f.1 with
  | .error e => (.error (wrapErr "failed to parse kube config" e), tr ++ f.2)
  | .ok kc =>
    if kc.clusters.length ≠ 1 then (.error "unexpected kube config", tr ++ f.2)
    else connectWithConfig i kc (tr ++ f.2)

/-- `ConnectCmd.Connect`: argument check, pod resolution (skipped when
`--pod` was given; its error wrapped as
`errors.Wrap(err, "finding vcluster pod")`), then the later stages. -/
def connect (i : ConnectInputs) : Except String ConnectResult × List Event :=
  if i.vclusterName = "" ∧ i.podName = "" then
    (.error "please specify either --pod or a name for the vcluster", [])
  else if i.podName ≠ "" then connectWithPod i []
  else
    let r := pollLoop resolveStep () i.podIters
    match r.1 with
    | .error e => (.error (wrapErr "finding vcluster pod" e), r.2)
    | .ok _ => connectWithPod i r.2

/-! ## Helper lemmas -/

/-- Both retrieval strategies of a `GetKubeConfig` iteration fail:
the secret read errors and the in-container read errors. -/
def bothFail (j : FetchIter) : Prop :=
  (∃ e, j.secret = .error e) ∧ (∃ e, j.execOut = .error e)

/-- Every event a `GetKubeConfig` step emits is a secret read, an exec
read or a log notice. -/
theorem getKubeConfigStep_events (s : Bool) (j : FetchIter) :
    ∀ e ∈ (getKubeConfigStep s j).2.2,
      e = Event.secretRead ∨ e = Event.execRead ∨ ∃ m, e = Event.logInfo m := by
  intro e he
  rcases j with ⟨sec, ex, par⟩
  rcases sec with es | kcs <;> rcases ex with ee | out <;> rcases par with pe | pk <;>
    cases s <;> simp [getKubeConfigStep] at he <;> aesop

/-- Every event the `GetKubeConfig` poll emits is a secret read, an
exec read or a log notice. -/
theorem pollLoop_fetch_events (iters : List FetchIter) :
    ∀ (s : Bool), ∀ e ∈ (pollLoop getKubeConfigStep s iters).2,
      e = Event.secretRead ∨ e = Event.execRead ∨ ∃ m, e = Event.logInfo m := by
  induction iters with
  | nil => intro s e he; simp [pollLoop] at he
  | cons j rest ih =>
    intro s e he
    rcases hj : getKubeConfigStep s j with ⟨step, s2, evs⟩
    have hevs : ∀ e ∈ evs,
        e = Event.secretRead ∨ e = Event.execRead ∨ ∃ m, e = Event.logInfo m := by
      intro e he2
      exact getKubeConfigStep_events s j e (by rw [hj]; exact he2)
    rcases step with b | _ | err
    · simp only [pollLoop, hj] at he
      exact hevs e he
    · simp only [pollLoop, hj, List.mem_append] at he
      rcases he with he | he
      · exact hevs e he
      · exact ih s2 e he
    · simp only [pollLoop, hj] at he
      exact hevs e he

/-- The trace of `getKubeConfig` is the trace of its poll. -/
theorem getKubeConfig_trace (iters : List FetchIter) :
    (getKubeConfig iters).2 = (pollLoop getKubeConfigStep false iters).2 := by
  rcases h : (pollLoop getKubeConfigStep false iters).1 with e | kc <;>
    simp [getKubeConfig, h]

/-! ## Claim theorems -/

/-- Claim C9: if the caller supplies neither a logical instance name
nor a direct pod name, `Connect` fails immediately with an error, with
an empty trace — before any workload query, credential fetch, endpoint
discovery or tunnel setup. -/
theorem connect_requires_name_or_pod (i : ConnectInputs)
    (h1 : i.vclusterName = "") (h2 : i.podName = "") :
    connect i = (.error "please specify either --pod or a name for the vcluster", []) := by
  simp [connect, h1, h2]

/-- Witness for C9 at a concrete input. -/
theorem connect_requires_name_or_pod_witness :
    connect ⟨"", "", "", 8443, [], [], []⟩
      = (.error "please specify either --pod or a name for the vcluster", []) :=
  connect_requires_name_or_pod ⟨"", "", "", 8443, [], [], []⟩ rfl rfl

/-- Claim C5: the endpoint discoverer reports "no public endpoint"
(successfully, with the server left empty) on its very first poll —
the trace is a single service read, with no waiting notice — whenever
that poll reports not-found or a service whose type is not
LoadBalancer. -/
theorem discover_no_endpoint_first_poll (vname : String)
    (it : ServiceResult) (rest : List ServiceResult)
    (h : it = ServiceResult.notFound ∨
      ∃ s, it = ServiceResult.found s ∧ s.svcType ≠ ServiceType.loadBalancer) :
    (discoverEndpoint vname (it :: rest)).1 = .ok "" ∧
    (discoverEndpoint vname (it :: rest)).2 = [Event.serviceGet] := by
  rcases h with h | ⟨s, h, hs⟩
  · subst h; simp [discoverEndpoint, pollLoop, discoverStep]
  · subst h; simp [discoverEndpoint, pollLoop, discoverStep, hs]

/-- Witness for C5 at concrete inputs. -/
theorem discover_no_endpoint_first_poll_witness :
    (discoverEndpoint "demo" [ServiceResult.notFound]).1 = .ok "" ∧
    (discoverEndpoint "demo" [ServiceResult.notFound]).2 = [Event.serviceGet] :=
  discover_no_endpoint_first_poll "demo" ServiceResult.notFound [] (Or.inl rfl)

/-- Claim C2: when the fetched document's clusters map has other than
exactly one entry, `Connect` fails with the configuration error
`unexpected kube config`, and its trace contains no service read, no
tunnel start and no document hand-off. -/
theorem connect_config_error (i : ConnectInputs) (kc : KubeConfig)
    (hpod : i.podName ≠ "")
    (hfetch : (getKubeConfig i.fetchIters).1 = .ok kc)
    (hlen : kc.clusters.length ≠ 1) :
    (connect i).1 = .error "unexpected kube config" ∧
    Event.serviceGet ∉ (connect i).2 ∧
    Event.startTunnel ∉ (connect i).2 ∧
    Event.writeOutput ∉ (connect i).2 := by
  have hc : connect i = (.error "unexpected kube config", (getKubeConfig i.fetchIters).2) := by
    simp [connect, hpod, connectWithPod, hfetch, hlen]
  rw [hc]
  refine ⟨rfl, ?_, ?_, ?_⟩ <;>
  · intro hmem
    rw [getKubeConfig_trace] at hmem
    rcases pollLoop_fetch_events i.fetchIters false _ hmem with h | h | ⟨m, h⟩ <;>
      simp at h

/-- Witness for C2 at a concrete input: the fetched document has two
cluster entries. -/
theorem connect_config_error_witness :
    (connect ⟨"demo", "demo-0", "", 8443, [],
        [⟨.ok ⟨[("a", ⟨"https://h:1"⟩), ("b", ⟨"https://h:2"⟩)]⟩, .error "", .error ""⟩],
        []⟩).1 = .error "unexpected kube config" ∧
    Event.serviceGet ∉ (connect ⟨"demo", "demo-0", "", 8443, [],
        [⟨.ok ⟨[("a", ⟨"https://h:1"⟩), ("b", ⟨"https://h:2"⟩)]⟩, .error "", .error ""⟩],
        []⟩).2 ∧
    Event.startTunnel ∉ (connect ⟨"demo", "demo-0", "", 8443, [],
        [⟨.ok ⟨[("a", ⟨"https://h:1"⟩), ("b", ⟨"https://h:2"⟩)]⟩, .error "", .error ""⟩],
        []⟩).2 ∧
    Event.writeOutput ∉ (connect ⟨"demo", "demo-0", "", 8443, [],
        [⟨.ok ⟨[("a", ⟨"https://h:1"⟩), ("b", ⟨"https://h:2"⟩)]⟩, .error "", .error ""⟩],
        []⟩).2 :=
  connect_config_error _ ⟨[("a", ⟨"https://h:1"⟩), ("b", ⟨"https://h:2"⟩)]⟩
    (by decide) rfl (by decide)

/-- Prepending the secure scheme never yields an empty address. -/
theorem https_append_ne_empty (s : String) : "https://" ++ s ≠ "" := by
  intro h
  have h2 := congrArg String.length h
  rw [String.length_append] at h2
  have h3 : "https://".length = 8 := rfl
  have h4 : "".length = 0 := rfl
  rw [h3, h4] at h2
  omega

/-- Claim C6: with a non-empty explicit server address, `Connect`
replaces the sole cluster entry's server wholesale with the address,
prepending `https://` exactly when it is missing, hands the document
off, and starts no tunnel. -/
theorem connect_direct_endpoint (i : ConnectInputs) (kc : KubeConfig)
    (k : String) (c : Cluster)
    (hpod : i.podName ≠ "")
    (hfetch : (getKubeConfig i.fetchIters).1 = .ok kc)
    (hkc : kc.clusters = [(k, c)])
    (hserver : i.server ≠ "") :
    (connect i).1 = .ok ⟨[(k, ⟨if goHasHttps i.server then i.server
        else "https://" ++ i.server⟩)], none⟩ ∧
    Event.startTunnel ∉ (connect i).2 ∧
    Event.writeOutput ∈ (connect i).2 := by
  have hlen : kc.clusters.length = 1 := by rw [hkc]; rfl
  have hnorm : (if goHasHttps i.server then i.server else "https://" ++ i.server) ≠ "" := by
    rcases h : goHasHttps i.server <;> simp
    · exact https_append_ne_empty i.server
    · exact hserver
  have hcond : ¬ (i.vclusterName ≠ "" ∧ i.server = "") := by
    intro h; exact hserver h.2
  have hc : connect i =
      (.ok ⟨[(k, ⟨if goHasHttps i.server then i.server else "https://" ++ i.server⟩)], none⟩,
        ([] ++ (getKubeConfig i.fetchIters).2) ++ [Event.writeOutput]) := by
    have h1 : connect i = connectWithPod i [] := by
      simp [connect, hpod]
    have h2 : connectWithPod i [] =
        connectWithConfig i kc ([] ++ (getKubeConfig i.fetchIters).2) := by
      simp only [connectWithPod, hfetch]
      rw [if_neg (by simp [hlen])]
    have h3 : connectWithConfig i kc ([] ++ (getKubeConfig i.fetchIters).2) =
        connectRewrite i kc i.server ([] ++ (getKubeConfig i.fetchIters).2) := by
      simp only [connectWithConfig, if_neg hcond]
    rw [h1, h2, h3]
    simp only [connectRewrite, hkc, rewriteClusters]
    rw [if_pos hserver]
    simp only [rewriteClusters]
    rw [if_pos hnorm]
  rw [hc]
  refine ⟨rfl, ?_, ?_⟩
  · intro hmem
    simp only [List.nil_append, List.mem_append] at hmem
    rcases hmem with hmem | hmem
    · rw [getKubeConfig_trace] at hmem
      rcases pollLoop_fetch_events i.fetchIters false _ hmem with h | h | ⟨m, h⟩ <;>
        simp at h
    · simp at hmem
  · simp

/-- Witness for C6 at a concrete input: an address without the scheme
gets it prepended, and no tunnel is started. -/
theorem connect_direct_endpoint_witness :
    (connect ⟨"demo", "demo-0", "1.2.3.4", 8443, [],
        [⟨.ok ⟨[("demo", ⟨"https://10.0.0.5:6443"⟩)]⟩, .error "", .error ""⟩], []⟩).1
      = .ok ⟨[("demo", ⟨"https://1.2.3.4"⟩)], none⟩ ∧
    Event.startTunnel ∉ (connect ⟨"demo", "demo-0", "1.2.3.4", 8443, [],
        [⟨.ok ⟨[("demo", ⟨"https://10.0.0.5:6443"⟩)]⟩, .error "", .error ""⟩], []⟩).2 ∧
    Event.writeOutput ∈ (connect ⟨"demo", "demo-0", "1.2.3.4", 8443, [],
        [⟨.ok ⟨[("demo", ⟨"https://10.0.0.5:6443"⟩)]⟩, .error "", .error ""⟩], []⟩).2 := by
  have h := connect_direct_endpoint
    ⟨"demo", "demo-0", "1.2.3.4", 8443, [],
        [⟨.ok ⟨[("demo", ⟨"https://10.0.0.5:6443"⟩)]⟩, .error "", .error ""⟩], []⟩
    ⟨[("demo", ⟨"https://10.0.0.5:6443"⟩)]⟩ "demo" ⟨"https://10.0.0.5:6443"⟩
    (by decide) rfl rfl (by decide)
  have hg : goHasHttps "1.2.3.4" = false := by decide
  rw [hg] at h
  simpa using h

/-- In tunnel mode (empty server) the rewrite loop leaves the server
empty. -/
theorem rewriteClusters_empty_server (lp : Int) (cl : List (String × Cluster)) :
    ∀ (port sf p : String) (cl2 : List (String × Cluster)),
      rewriteClusters lp "" port cl = .ok (sf, p, cl2) → sf = "" := by
  induction cl with
  | nil =>
    intro port sf p cl2 h
    simp [rewriteClusters] at h
    exact h.1.symm
  | cons kc rest ih =>
    intro port sf p cl2 h
    rcases kc with ⟨k, c⟩
    simp only [rewriteClusters, ne_eq, not_true_eq_false, if_false, ite_false,
      reduceIte] at h
    split at h
    · exact absurd h (by simp)
    · rcases hr : rewriteClusters lp "" ((goSplitColon c.server).getD 2 "") rest with e | ⟨s3, p3, rest3⟩ <;>
        rw [hr] at h
      · exact absurd h (by simp)
      · simp only [Except.ok.injEq, Prod.mk.injEq] at h
        exact h.1 ▸ ih _ s3 p3 rest3 hr

/-- Claim C10: with only a pod name (no vcluster name) and no explicit
server, the service resource is never queried, and any successful run
is in tunnel mode. -/
theorem connect_pod_only_tunnel_mode (i : ConnectInputs)
    (hpod : i.podName ≠ "") (hname : i.vclusterName = "") (hserver : i.server = "") :
    Event.serviceGet ∉ (connect i).2 ∧
    (∀ r, (connect i).1 = .ok r → r.tunnel.isSome) := by
  have hcw : connect i = connectWithPod i [] := by
    simp [connect, hpod]
  have hnofetch : Event.serviceGet ∉ (getKubeConfig i.fetchIters).2 := by
    intro hmem
    rw [getKubeConfig_trace] at hmem
    rcases pollLoop_fetch_events i.fetchIters false _ hmem with h | h | ⟨m, h⟩ <;>
      simp at h
  rw [hcw]
  rcases hf : (getKubeConfig i.fetchIters).1 with e | kc
  · constructor
    · intro hmem
      simp only [connectWithPod, hf, List.nil_append] at hmem
      exact hnofetch hmem
    · intro r hr
      simp [connectWithPod, hf] at hr
  · rcases hlen : decide (kc.clusters.length ≠ 1) with _ | _
    · -- exactly one cluster entry
      have hlen2 : ¬ (kc.clusters.length ≠ 1) := of_decide_eq_false hlen
      have hcond : ¬ (i.vclusterName ≠ "" ∧ i.server = "") := by
        intro h; exact h.1 hname
      have hred : connectWithPod i [] =
          connectRewrite i kc i.server ([] ++ (getKubeConfig i.fetchIters).2) := by
        simp only [connectWithPod, hf, if_neg hlen2, connectWithConfig, if_neg hcond]
      rw [hred]
      rcases hrw : rewriteClusters i.localPort i.server "" kc.clusters with e2 | ⟨sf, p2, cl2⟩
      · constructor
        · intro hmem
          simp only [connectRewrite, hrw, List.nil_append] at hmem
          exact hnofetch hmem
        · intro r hr
          simp [connectRewrite, hrw] at hr
      · have hrw0 := hrw
        rw [hserver] at hrw0
        have hsf : sf = "" :=
          rewriteClusters_empty_server i.localPort kc.clusters "" sf p2 cl2 hrw0
        subst hsf
        constructor
        · intro hmem
          simp only [connectRewrite, hrw, ne_eq, not_true_eq_false, if_false,
            ite_false, reduceIte, List.nil_append, List.mem_append] at hmem
          rcases hmem with hmem | hmem
          · exact hnofetch hmem
          · simp at hmem
        · intro r hr
          simp only [connectRewrite, hrw, ne_eq, not_true_eq_false, if_false,
            ite_false, reduceIte, Except.ok.injEq] at hr
          rw [← hr]
          rfl
    · have hlen2 : kc.clusters.length ≠ 1 := of_decide_eq_true hlen
      constructor
      · intro hmem
        simp only [connectWithPod, hf, if_pos hlen2, List.nil_append] at hmem
        exact hnofetch hmem
      · intro r hr
        simp [connectWithPod, hf, hlen2] at hr

/-- Witness for C10 at a concrete input. -/
theorem connect_pod_only_tunnel_mode_witness :
    Event.serviceGet ∉ (connect ⟨"", "demo-0", "", 8443, [],
        [⟨.ok ⟨[("demo", ⟨"https://10.0.0.5:6443"⟩)]⟩, .error "", .error ""⟩], []⟩).2 ∧
    (∀ r, (connect ⟨"", "demo-0", "", 8443, [],
        [⟨.ok ⟨[("demo", ⟨"https://10.0.0.5:6443"⟩)]⟩, .error "", .error ""⟩], []⟩).1
        = .ok r → r.tunnel.isSome) :=
  connect_pod_only_tunnel_mode _ (by decide) rfl rfl

/-- The pod comparison is transitive. -/
theorem podNewerLe_trans (a b c : Pod) (hab : podNewerLe a b = true)
    (hbc : podNewerLe b c = true) : podNewerLe a c = true := by
  simp only [podNewerLe, decide_eq_true_eq] at *
  omega

/-- The pod comparison is total. -/
theorem podNewerLe_total (a b : Pod) : (podNewerLe a b || podNewerLe b a) = true := by
  simp only [podNewerLe, Bool.or_eq_true, decide_eq_true_eq]
  omega

/-- The first pod of the sorted list is one of the pods and has the
maximum creation time. -/
theorem sortPodsDesc_head_max (l : List Pod) (p : Pod) (rest : List Pod)
    (h : sortPodsDesc l = p :: rest) :
    p ∈ l ∧ ∀ q ∈ l, q.creationTs ≤ p.creationTs := by
  have hperm := List.mergeSort_perm l podNewerLe
  have hsorted := List.sorted_mergeSort podNewerLe_trans podNewerLe_total l
  rw [sortPodsDesc] at h
  rw [h] at hperm hsorted
  have hmemp : p ∈ l := hperm.mem_iff.mp (by simp)
  refine ⟨hmemp, ?_⟩
  intro q hq
  have hq2 : q ∈ p :: rest := hperm.mem_iff.mpr hq
  rcases List.mem_cons.mp hq2 with h2 | h2
  · subst h2; exact le_refl _
  · have := (List.pairwise_cons.mp hsorted).1 q h2
    simpa [podNewerLe] using this

/-- Claim C3: a pod chosen by one resolution poll is a candidate with
the maximum creation time and carries no deletion timestamp; and when
the strictly newest candidate carries a deletion timestamp, the poll
chooses no pod at all, even if it is the only candidate. -/
theorem resolvePoll_newest (l : List Pod) :
    (∀ p, resolvePoll l = some p →
        p ∈ l ∧ p.deletionTs = none ∧ ∀ q ∈ l, q.creationTs ≤ p.creationTs) ∧
    (∀ p, p ∈ l → p.deletionTs ≠ none →
        (∀ q ∈ l, q ≠ p → q.creationTs < p.creationTs) →
        resolvePoll l = none) := by
  constructor
  · intro p hp
    rcases hs : sortPodsDesc l with _ | ⟨q, rest⟩
    · rw [resolvePoll, hs] at hp
      split at hp
      · exact absurd hp (by simp)
      · exact absurd hp (by simp)
    · rw [resolvePoll, hs] at hp
      split at hp
      · exact absurd hp (by simp)
      · rcases hdel : q.deletionTs.isSome with _ | _
        · simp only [hdel, Bool.false_eq_true, if_false, ite_false, reduceIte,
            Option.some.injEq] at hp
          subst hp
          obtain ⟨hmem, hmax⟩ := sortPodsDesc_head_max l q rest hs
          exact ⟨hmem, Option.not_isSome_iff_eq_none.mp (by simp [hdel]), hmax⟩
        · simp only [hdel] at hp
          exact absurd hp (by simp)
  · intro p hmem hdel hmax
    rcases hs : sortPodsDesc l with _ | ⟨q, rest⟩
    · have hperm := List.mergeSort_perm l podNewerLe
      rw [sortPodsDesc] at hs
      rw [hs] at hperm
      rw [← hperm.mem_iff] at hmem
      simp at hmem
    · obtain ⟨hqmem, hqmax⟩ := sortPodsDesc_head_max l q rest hs
      have hqp : q = p := by
        by_contra hne
        have h1 := hmax q hqmem hne
        have h2 := hqmax p hmem
        omega
      subst hqp
      have hne : ¬ l.isEmpty := by
        rcases l with _ | _
        · simp at hmem
        · simp
      rw [resolvePoll, if_neg (by simpa using hne), hs]
      have hq : q.deletionTs.isSome = true := Option.isSome_iff_ne_none.mpr hdel
      simp [hq]

/-- Witness for C3 at a concrete input: the strictly newest candidate
is terminating and is never chosen, although an older candidate
exists. -/
theorem resolvePoll_newest_witness :
    resolvePoll [⟨"old", 1, none⟩, ⟨"new", 5, some 7⟩] = none :=
  (resolvePoll_newest [⟨"old", 1, none⟩, ⟨"new", 5, some 7⟩]).2
    ⟨"new", 5, some 7⟩ (by decide) (by decide) (by decide)

/-- Joining three segments with colons. -/
theorem goJoinColon_three (a b c : String) :
    goJoinColon [a, b, c] = a ++ ":" ++ b ++ ":" ++ c := by
  simp [goJoinColon, String.append_assoc]

/-- Claim C1: in tunnel mode (no explicit or discovered server), when
the sole cluster entry's server splits into exactly three
colon-delimited segments, `Connect` keeps the first two segments
(scheme and host), substitutes the local port for the third, records
the third segment as the tunnel's remote port, and starts the
tunnel. -/
theorem connect_tunnel_rewrite (i : ConnectInputs) (kc : KubeConfig)
    (k a b pr : String) (c : Cluster)
    (hpod : i.podName ≠ "") (hname : i.vclusterName = "") (hserver : i.server = "")
    (hfetch : (getKubeConfig i.fetchIters).1 = .ok kc)
    (hkc : kc.clusters = [(k, c)])
    (hsplit : goSplitColon c.server = [a, b, pr]) :
    (connect i).1 = .ok ⟨[(k, ⟨a ++ ":" ++ b ++ ":" ++ goItoa i.localPort⟩)],
        some (i.localPort, pr)⟩ ∧
    Event.startTunnel ∈ (connect i).2 := by
  have hlen : kc.clusters.length = 1 := by rw [hkc]; rfl
  have hcond : ¬ (i.vclusterName ≠ "" ∧ i.server = "") := by
    intro h; exact h.1 hname
  have hc : connect i =
      (.ok ⟨[(k, ⟨a ++ ":" ++ b ++ ":" ++ goItoa i.localPort⟩)], some (i.localPort, pr)⟩,
        ([] ++ (getKubeConfig i.fetchIters).2) ++ [Event.writeOutput, Event.startTunnel]) := by
    have h1 : connect i = connectWithPod i [] := by
      simp [connect, hpod]
    have h2 : connectWithPod i [] =
        connectWithConfig i kc ([] ++ (getKubeConfig i.fetchIters).2) := by
      simp only [connectWithPod, hfetch]
      rw [if_neg (by simp [hlen])]
    have h3 : connectWithConfig i kc ([] ++ (getKubeConfig i.fetchIters).2) =
        connectRewrite i kc i.server ([] ++ (getKubeConfig i.fetchIters).2) := by
      simp only [connectWithConfig, if_neg hcond]
    rw [h1, h2, h3, hserver]
    simp only [connectRewrite, hkc, rewriteClusters]
    rw [if_neg (by simp)]
    rw [hsplit]
    rw [if_neg (by simp)]
    simp only [rewriteClusters, List.getD, List.set, goJoinColon_three]
    simp
  rw [hc]
  exact ⟨rfl, by simp⟩

/-- Witness for C1 at the spec's example: `https://10.0.0.5:6443` with
local port 8443 becomes `https://10.0.0.5:8443` with remote port
`6443`. -/
theorem connect_tunnel_rewrite_witness :
    (connect ⟨"", "demo-0", "", 8443, [],
        [⟨.ok ⟨[("demo", ⟨"https://10.0.0.5:6443"⟩)]⟩, .error "", .error ""⟩], []⟩).1
      = .ok ⟨[("demo", ⟨"https://10.0.0.5:8443"⟩)], some (8443, "6443")⟩ ∧
    Event.startTunnel ∈ (connect ⟨"", "demo-0", "", 8443, [],
        [⟨.ok ⟨[("demo", ⟨"https://10.0.0.5:6443"⟩)]⟩, .error "", .error ""⟩], []⟩).2 := by
  have h := connect_tunnel_rewrite
    ⟨"", "demo-0", "", 8443, [],
        [⟨.ok ⟨[("demo", ⟨"https://10.0.0.5:6443"⟩)]⟩, .error "", .error ""⟩], []⟩
    ⟨[("demo", ⟨"https://10.0.0.5:6443"⟩)]⟩ "demo" "https" "//10.0.0.5" "6443"
    ⟨"https://10.0.0.5:6443"⟩ (by decide) rfl rfl rfl rfl (by decide)
  have hs : "https" ++ ":" ++ "//10.0.0.5" ++ ":" ++ goItoa 8443
      = "https://10.0.0.5:8443" := by decide
  rw [hs] at h
  exact h

/-- A both-fail iteration makes the fetch step continue polling,
setting the waiting flag and emitting the waiting notice only when the
flag was still unset. -/
theorem getKubeConfigStep_bothFail (s : Bool) (j : FetchIter) (hj : bothFail j) :
    getKubeConfigStep s j =
      (.cont, true, [Event.secretRead, Event.execRead]
        ++ if s then [] else [Event.logInfo waitingForVclusterMsg]) := by
  rcases hj with ⟨⟨e1, h1⟩, ⟨e2, h2⟩⟩
  cases s <;> simp [getKubeConfigStep, h1, h2]

/-- After any number of both-fail iterations, a fallback-success
iteration returns its parsed document, and the whole trace carries the
fallback notice exactly once. -/
theorem getKubeConfig_fallback_aux (pre : List FetchIter) :
    ∀ (s : Bool), (∀ j ∈ pre, bothFail j) →
    ∀ (it : FetchIter) (rest : List FetchIter) (kc : KubeConfig) (e0 out : String),
      it.secret = .error e0 → it.execOut = .ok out → it.parsed = .ok kc →
      (pollLoop getKubeConfigStep s (pre ++ it :: rest)).1 = .ok kc ∧
      (pollLoop getKubeConfigStep s (pre ++ it :: rest)).2.count
          (Event.logInfo fallbackMsg) = 1 := by
  induction pre with
  | nil =>
    intro s _ it rest kc e0 out hsec hexec hparse
    simp only [List.nil_append, pollLoop, getKubeConfigStep, hsec, hexec, hparse]
    constructor
    · trivial
    · decide
  | cons j pre ih =>
    intro s h it rest kc e0 out hsec hexec hparse
    have hj := h j (by simp)
    have hrec := ih true (fun j2 hj2 => h j2 (by simp [hj2])) it rest kc e0 out hsec hexec hparse
    rw [List.cons_append]
    simp only [pollLoop, getKubeConfigStep_bothFail s j hj]
    refine ⟨hrec.1, ?_⟩
    rw [List.count_append, hrec.2]
    cases s <;> decide

/-- Claim C4: when the secret read fails on every iteration but on the
final one the in-container fallback succeeds and its output parses,
`GetKubeConfig` returns the parsed document and emits the fallback
notice exactly once, regardless of how many earlier iterations
failed. -/
theorem getKubeConfig_fallback (pre : List FetchIter) (it : FetchIter)
    (rest : List FetchIter) (kc : KubeConfig) (e0 out : String)
    (h : ∀ j ∈ pre, bothFail j)
    (hsec : it.secret = .error e0) (hexec : it.execOut = .ok out)
    (hparse : it.parsed = .ok kc) :
    (getKubeConfig (pre ++ it :: rest)).1 = .ok kc ∧
    (getKubeConfig (pre ++ it :: rest)).2.count (Event.logInfo fallbackMsg) = 1 := by
  have haux := getKubeConfig_fallback_aux pre false h it rest kc e0 out hsec hexec hparse
  rw [getKubeConfig_trace]
  refine ⟨?_, haux.2⟩
  simp [getKubeConfig, haux.1]

/-- Witness for C4 at a concrete input: two failing iterations, then a
fallback success. -/
theorem getKubeConfig_fallback_witness :
    (getKubeConfig [⟨.error "no secret", .error "pod starting", .error ""⟩,
        ⟨.error "no secret", .error "pod starting", .error ""⟩,
        ⟨.error "no secret", .ok "raw", .ok ⟨[("demo", ⟨"https://10.0.0.5:6443"⟩)]⟩⟩]).1
      = .ok ⟨[("demo", ⟨"https://10.0.0.5:6443"⟩)]⟩ ∧
    (getKubeConfig [⟨.error "no secret", .error "pod starting", .error ""⟩,
        ⟨.error "no secret", .error "pod starting", .error ""⟩,
        ⟨.error "no secret", .ok "raw", .ok ⟨[("demo", ⟨"https://10.0.0.5:6443"⟩)]⟩⟩]).2.count
        (Event.logInfo fallbackMsg) = 1 :=
  getKubeConfig_fallback
    [⟨.error "no secret", .error "pod starting", .error ""⟩,
      ⟨.error "no secret", .error "pod starting", .error ""⟩]
    ⟨.error "no secret", .ok "raw", .ok ⟨[("demo", ⟨"https://10.0.0.5:6443"⟩)]⟩⟩
    [] ⟨[("demo", ⟨"https://10.0.0.5:6443"⟩)]⟩ "no secret" "raw"
    (by intro j hj
        simp only [List.mem_cons, List.not_mem_nil, or_false] at hj
        rcases hj with rfl | rfl <;> exact ⟨⟨_, rfl⟩, ⟨_, rfl⟩⟩)
    rfl rfl rfl

/-- A run all of whose iterations fail both strategies polls to the
deadline (it never aborts early), and emits the waiting notice exactly
once when there is at least one iteration. -/
theorem pollLoop_fetch_allBad (iters : List FetchIter) :
    ∀ (s : Bool), (∀ j ∈ iters, bothFail j) →
    (pollLoop getKubeConfigStep s iters).1 = .error errWaitTimeout ∧
    (pollLoop getKubeConfigStep s iters).2.count (Event.logInfo waitingForVclusterMsg)
      = if s then 0 else if iters.isEmpty then 0 else 1 := by
  induction iters with
  | nil => intro s h; cases s <;> simp [pollLoop]
  | cons j rest ih =>
    intro s h
    have hj := h j (by simp)
    have hrec := ih true (fun j2 hj2 => h j2 (by simp [hj2]))
    simp only [pollLoop, getKubeConfigStep_bothFail s j hj]
    refine ⟨hrec.1, ?_⟩
    rw [List.count_append, hrec.2]
    cases s <;> simp [List.count_cons]

/-- Counterexample for C7: an iteration in which the fallback fails to
yield a parseable document because the in-container command succeeded
but its output did not parse aborts the poll immediately with a parse
error — it does not continue polling, although the very next iteration
would have succeeded, as the second run (identical but for a genuine
exec failure on the first iteration) shows. -/
theorem getKubeConfig_parse_abort_counterexample :
    (getKubeConfig [⟨.error "no secret", .ok "garbage", .error "no kind field"⟩,
        ⟨.ok ⟨[("demo", ⟨"https://10.0.0.5:6443"⟩)]⟩, .error "", .error ""⟩]).1
      = .error (wrapErr "wait for vcluster" ("failed to parse kube config: " ++ "no kind field")) ∧
    (getKubeConfig [⟨.error "no secret", .error "exec failed", .error ""⟩,
        ⟨.ok ⟨[("demo", ⟨"https://10.0.0.5:6443"⟩)]⟩, .error "", .error ""⟩]).1
      = .ok ⟨[("demo", ⟨"https://10.0.0.5:6443"⟩)]⟩ :=
  ⟨rfl, rfl⟩

/-- Claim C7 (amended): in every iteration in which both retrieval
strategies themselves error — the secret read fails and the
in-container command execution fails — the fetch step keeps polling
(never aborts), the run only fails once the deadline elapses, and the
waiting notice is emitted exactly once; an iteration whose exec output
fails to parse instead aborts the poll at once. -/
theorem getKubeConfig_bothFail_keeps_polling (iters : List FetchIter)
    (h : ∀ j ∈ iters, bothFail j) (hne : iters ≠ []) :
    (∀ (s : Bool) (j : FetchIter), bothFail j → (getKubeConfigStep s j).1 = PollStep.cont) ∧
    (getKubeConfig iters).1 = .error (wrapErr "wait for vcluster" errWaitTimeout) ∧
    (getKubeConfig iters).2.count (Event.logInfo waitingForVclusterMsg) = 1 := by
  have haux := pollLoop_fetch_allBad iters false h
  refine ⟨?_, ?_, ?_⟩
  · intro s j hj
    rw [getKubeConfigStep_bothFail s j hj]
  · simp [getKubeConfig, haux.1]
  · rw [getKubeConfig_trace, haux.2]
    have : iters.isEmpty = false := by
      rcases iters with _ | _
      · exact absurd rfl hne
      · rfl
    rw [this]
    rfl

/-- Witness for C7 at a concrete input. -/
theorem getKubeConfig_bothFail_keeps_polling_witness :
    (∀ (s : Bool) (j : FetchIter), bothFail j → (getKubeConfigStep s j).1 = PollStep.cont) ∧
    (getKubeConfig [⟨.error "no secret", .error "pod starting", .error ""⟩,
        ⟨.error "no secret", .error "pod starting", .error ""⟩]).1
      = .error (wrapErr "wait for vcluster" errWaitTimeout) ∧
    (getKubeConfig [⟨.error "no secret", .error "pod starting", .error ""⟩,
        ⟨.error "no secret", .error "pod starting", .error ""⟩]).2.count
        (Event.logInfo waitingForVclusterMsg) = 1 :=
  getKubeConfig_bothFail_keeps_polling
    [⟨.error "no secret", .error "pod starting", .error ""⟩,
      ⟨.error "no secret", .error "pod starting", .error ""⟩]
    (by intro j hj
        simp only [List.mem_cons, List.not_mem_nil, or_false] at hj
        rcases hj with rfl | rfl <;> exact ⟨⟨_, rfl⟩, ⟨_, rfl⟩⟩)
    (by simp)

/-- Counterexample for C8: on deadline expiry `GetKubeConfig` wraps
the generic timed-out-condition error, not the last observed
underlying error — two runs whose underlying secret and exec errors
differ produce the identical timeout error, and that error differs
from the stage wrap of either underlying error. -/
theorem getKubeConfig_timeout_counterexample :
    (getKubeConfig [⟨.error "secret not found", .error "exec failed", .error ""⟩]).1
      = .error (wrapErr "wait for vcluster" errWaitTimeout) ∧
    (getKubeConfig [⟨.error "secret unavailable", .error "connection refused", .error ""⟩]).1
      = .error (wrapErr "wait for vcluster" errWaitTimeout) ∧
    wrapErr "wait for vcluster" errWaitTimeout ≠ wrapErr "wait for vcluster" "exec failed" ∧
    wrapErr "wait for vcluster" errWaitTimeout ≠ wrapErr "wait for vcluster" "secret not found" :=
  ⟨rfl, rfl, by decide, by decide⟩

/-- All pod polls of a run that never sees a pod continue to the
deadline. -/
theorem pollLoop_resolve_empty (pods : List (Except String (List Pod)))
    (hp : ∀ r ∈ pods, r = .ok []) :
    (pollLoop resolveStep () pods).1 = .error errWaitTimeout := by
  induction pods with
  | nil => simp [pollLoop]
  | cons r rest ih =>
    have hr := hp r (by simp)
    subst hr
    simp only [pollLoop, resolveStep, resolvePoll]
    simp only [List.isEmpty_nil, if_true, ite_true, reduceIte]
    exact ih (fun r2 h2 => hp r2 (by simp [h2]))

/-- Claim C8 (amended): when a stage's poll deadline elapses without
success, the operation fails with an error that names the stage and
wraps the generic `timed out waiting for the condition` error — for the
credential fetch stage and for the pod resolution stage. -/
theorem timeout_error_amended (iters : List FetchIter) (i : ConnectInputs)
    (hf : ∀ j ∈ iters, bothFail j)
    (hpod : i.podName = "") (hname : i.vclusterName ≠ "")
    (hp : ∀ r ∈ i.podIters, r = .ok []) :
    (getKubeConfig iters).1 = .error (wrapErr "wait for vcluster" errWaitTimeout) ∧
    (connect i).1 = .error (wrapErr "finding vcluster pod" errWaitTimeout) := by
  constructor
  · have haux := pollLoop_fetch_allBad iters false hf
    simp [getKubeConfig, haux.1]
  · have hres := pollLoop_resolve_empty i.podIters hp
    simp [connect, hname, hpod, hres]

/-- Witness for the amended C8 at concrete inputs. -/
theorem timeout_error_amended_witness :
    (getKubeConfig [⟨.error "no secret", .error "pod starting", .error ""⟩]).1
      = .error (wrapErr "wait for vcluster" errWaitTimeout) ∧
    (connect ⟨"demo", "", "", 8443, [.ok [], .ok []], [], []⟩).1
      = .error (wrapErr "finding vcluster pod" errWaitTimeout) :=
  timeout_error_amended [⟨.error "no secret", .error "pod starting", .error ""⟩]
    ⟨"demo", "", "", 8443, [.ok [], .ok []], [], []⟩
    (by intro j hj
        simp only [List.mem_cons, List.not_mem_nil, or_false] at hj
        subst hj
        exact ⟨⟨_, rfl⟩, ⟨_, rfl⟩⟩)
    rfl (by decide)
    (by intro r hr
        simp only [List.mem_cons, List.not_mem_nil, or_false] at hr
        rcases hr with rfl | rfl <;> rfl)

end VC
